import Mathlib

/-!
Shallow embedding of the sender pipeline of acrn-crashlog
(`tools/acrn-crashlog/acrnprobe/sender.c`).

Strings are Lean `String`s; file contents for the tail-extraction routines
are modelled as the list of logical lines of the file.  External
collaborators (filesystem helpers, the telemetry client library, the
history store) are modelled as oracle fields of explicit environment
structures; the functions of `sender.c` are translated into Lean functions
over those environments that return their result value together with the
trace of externally visible actions they perform.
-/

namespace AcrnSender

/-- C `strstr(hay, pat)`: the tail of `hay` starting at the first
occurrence of `pat`, or `none` when `pat` does not occur. -/
def strstrTailChars : List Char → List Char → Option (List Char)
  | [], pat => if pat = [] then some [] else none
  | c :: t, pat =>
      if pat.isPrefixOf (c :: t) then some (c :: t) else strstrTailChars t pat

/-- `strstr` on `String`s, returning the tail from the first occurrence. -/
def strstrTail (hay pat : String) : Option String :=
  (strstrTailChars hay.toList pat.toList).map (fun l => String.mk l)

/-- Whether `pat` occurs somewhere inside `hay` (C `strstr(hay, pat) != NULL`). -/
def hasSubstr (hay pat : String) : Bool :=
  (strstrTail hay pat).isSome

/-- C `strrchr(f, '/') + 1`: the part of `f` after the last slash, or
`none` when `f` contains no slash (`strrchr` returned `NULL`). -/
def afterLastSlash (f : String) : Option String :=
  if f.toList.contains '/' then
    some (String.mk ((f.toList.reverse.takeWhile (fun c => c ≠ '/')).reverse))
  else
    none

/-- C `isspace` for the default locale, as used by `atoi`. -/
def isSpaceC (c : Char) : Bool :=
  c = ' ' || c = '\t' || c = '\n' || c = '\x0b' || c = '\x0c' || c = '\r'

/-- Value of a (decimal) digit string, most significant digit first. -/
def digitsVal (l : List Char) : Nat :=
  l.foldl (fun a c => a * 10 + (c.toNat - 48)) 0

/-- C `atoi`: skip leading whitespace, read an optional sign, then the
longest prefix of decimal digits (empty prefix gives 0). -/
def atoi (s : String) : Int :=
  let l := s.toList.dropWhile isSpaceC
  match l with
  | '-' :: t => -(digitsVal (t.takeWhile Char.isDigit) : Int)
  | '+' :: t => (digitsVal (t.takeWhile Char.isDigit) : Int)
  | _ => (digitsVal (l.takeWhile Char.isDigit) : Int)

/-- `struct log_t`, restricted to the fields `sender.c` reads:
`name`, `type`, `path`, `lines` (each a C string; `name` and `lines`
may be `NULL`). -/
structure LogT where
  name : Option String
  type : String
  path : String
  lines : Option String
deriving DecidableEq

/-- `cal_log_filepath` of `sender.c`.  `isAcFmt` is the external
`is_ac_filefmt` predicate on the log's configured path, `uptimeStr` the
string produced by `get_uptime_string`, `srcname` the `srcname` argument.
Returns `none` exactly when the C function returns -1 because the chosen
filename is `NULL` (`asprintf` out-of-memory failures are not modelled). -/
def cal_log_filepath (isAcFmt : String → Bool) (uptimeStr : String)
    (log : LogT) (srcname : Option String) (desdir : String) : Option String :=
  let filename : Option String :=
    if isAcFmt log.path then srcname else log.name
  match filename with
  | none => none
  | some fn =>
      let need_timestamp : Bool := (log.type == "cmd") || log.lines.isSome
      if need_timestamp then
        some (desdir ++ "/" ++ fn ++ "_" ++ uptimeStr)
      else
        some (desdir ++ "/" ++ fn)

/-- `get_log_file_tail` of `sender.c`, on a source file given as its list
of logical lines.  `mm_count_lines` is the length of that list and
`mm_get_line n` points at line `n` (1-based); `overwrite_file` writes from
that pointer to the end of the mapping.  The result is the list of lines
written to the destination, or `none` when nothing is written (mmap of an
empty/lineless file). -/
def get_log_file_tail (src : List String) (lines : Int) : Option (List String) :=
  let file_lines : Int := src.length
  if file_lines ≤ 0 then none
  else
    let start_line : Int := max (file_lines - lines) 0 + 1
    some (src.drop (start_line - 1).toNat)

/-- `get_log_file` of `sender.c`: `tail_lines == NULL` or a non-positive
`atoi` value means a whole-file copy, a positive value means tail
extraction.  Result: the lines written to the destination. -/
def get_log_file (src : List String) (tail_lines : Option String) :
    Option (List String) :=
  match tail_lines with
  | none => some src
  | some tl =>
      let lines := atoi tl
      if lines > 0 then get_log_file_tail src lines
      else some src

/-- The five telemetry-adapter operations invoked by `telemd_send_data`. -/
inductive TmOp where
  | create
  | setEventId
  | setPayload
  | send
  | release
deriving DecidableEq

/-- Position of an adapter operation in the required calling order. -/
def tmRank : TmOp → Nat
  | TmOp.create => 0
  | TmOp.setEventId => 1
  | TmOp.setPayload => 2
  | TmOp.send => 3
  | TmOp.release => 4

/-- Results the telemetry client library returns to `telemd_send_data`
(each is the `res` of the corresponding `tm_*` call; negative means
failure). -/
structure TmEnv where
  createRes : Int
  setEventIdRes : Int
  setPayloadRes : Int
  sendRes : Int
deriving DecidableEq

/-- `telemd_send_data` of `sender.c`: returns the C return value together
with the ordered trace of `tm_*` adapter calls it performs.  The
`tm_set_event_id` step is skipped when `eventid` is `NULL`; after a
failed `tm_create_record` the function jumps to `fail` without freeing
the (never created) handle, any later failure jumps to `free` which
releases the handle before returning -1. -/
def telemd_send_data (env : TmEnv) (eventid : Option String) :
    Int × List TmOp :=
  if env.createRes < 0 then
    (-1, [TmOp.create])
  else
    match eventid with
    | some _ =>
        if env.setEventIdRes < 0 then
          (-1, [TmOp.create, TmOp.setEventId, TmOp.release])
        else if env.setPayloadRes < 0 then
          (-1, [TmOp.create, TmOp.setEventId, TmOp.setPayload, TmOp.release])
        else if env.sendRes < 0 then
          (-1, [TmOp.create, TmOp.setEventId, TmOp.setPayload, TmOp.send,
            TmOp.release])
        else
          (0, [TmOp.create, TmOp.setEventId, TmOp.setPayload, TmOp.send,
            TmOp.release])
    | none =>
        if env.setPayloadRes < 0 then
          (-1, [TmOp.create, TmOp.setPayload, TmOp.release])
        else if env.sendRes < 0 then
          (-1, [TmOp.create, TmOp.setPayload, TmOp.send, TmOp.release])
        else
          (0, [TmOp.create, TmOp.setPayload, TmOp.send, TmOp.release])

/-- Externally visible actions performed by the sender handlers:
history-store records, file/directory creation and removal, and
telemetry submissions. -/
inductive Act where
  | spaceFull
  | writeArtifact (des : String)
  | crashfile (dir : String)
  | raiseEvent (ev cls : String) (dir : Option String) (key : String)
  | copyTrigger (des : String)
  | timing (warn : Bool)
  | removeDir (dir : String)
  | dumpAttempt (vmlogpath dir : String)
  | send (payload : String)
deriving DecidableEq

/-- The two outcomes of a VM-event handler (`VMEVT_HANDLED` /
`VMEVT_DEFER`). -/
inductive VmRes where
  | handled
  | defer
deriving DecidableEq

/-- Environment of the crashlog sender handlers: results of the external
helpers they call.  `senderFound` is whether `get_sender_by_name
("crashlog")` succeeds, `spaceAvailable` the result of `space_available`
on the sender's output directory against its quota (assumed stable over
one event), `configFmtToFiles` the expansion of a config-format path,
`reclassify`/`keyRes`/`dirRes` the results of `crash_t::reclassify`,
`generate_event_id` and `generate_log_dir`, `toCollect` the value of
`to_collect_logs(crash)`, `elapsedNs` the uptime difference around one
collection. -/
structure CrashlogEnv where
  senderFound : Bool
  spaceAvailable : Bool
  isAcFmt : String → Bool
  configFmtToFiles : String → Except Int (List String)
  uptimeStr : String
  elapsedNs : Nat
  reclassify : Option String
  keyRes : Option String
  dirRes : Option String
  toCollect : Bool
  channelInotify : Bool
  epath : String
  logs : List (Option LogT)

/-- One iteration of the config-format file loop in `crashlog_get_log`:
derive the base name after the last slash (`continue` when the path has
no slash), compute the destination path (`continue` on failure) and
collect into it via `get_log_by_type`. -/
def collectOne (env : CrashlogEnv) (log : LogT) (desdir : String)
    (file : String) : List Act :=
  match afterLastSlash file with
  | none => []
  | some nm =>
      match cal_log_filepath env.isAcFmt env.uptimeStr log (some nm) desdir with
      | none => []
      | some des => [Act.writeArtifact des]

/-- `crashlog_get_log` of `sender.c`: quota gate, collection of one log
descriptor into `desdir` (single file or expanded config-format set), and
the final elapsed-time log whose level is warning iff the whole-second
count reaches 5. -/
def crashlog_get_log (env : CrashlogEnv) (log : LogT) (desdir : String) :
    List Act :=
  if env.senderFound = false then []
  else if env.spaceAvailable = false then [Act.spaceFull]
  else if env.isAcFmt log.path then
    match env.configFmtToFiles log.path with
    | Except.error _ => []
    | Except.ok files =>
        if files = [] then []
        else
          files.flatMap (collectOne env log desdir) ++
            [Act.timing (decide (5 ≤ env.elapsedNs / 1000000000))]
  else
    match cal_log_filepath env.isAcFmt env.uptimeStr log log.name desdir with
    | none => []
    | some des =>
        [Act.writeArtifact des,
          Act.timing (decide (5 ≤ env.elapsedNs / 1000000000))]

/-- `crashlog_send_crash` of `sender.c`: reclassify, derive the key,
optionally create the event directory, write the crash manifest and
collect all associated logs, then (quota permitting) copy the trigger
file and raise the history record.  Returns the trace of actions. -/
def crashlog_send_crash (env : CrashlogEnv) : List Act :=
  match env.reclassify with
  | none => []
  | some cname =>
  match env.keyRes with
  | none => []
  | some key =>
  match
    (if env.toCollect || env.channelInotify then
      match env.dirRes with
      | none => none
      | some dir =>
          some (some dir,
            Act.crashfile dir ::
              env.logs.reduceOption.flatMap (fun lg => crashlog_get_log env lg dir))
     else some (none, [])) with
  | none => []
  | some (edir, acts) =>
      if env.senderFound = false then acts
      else
        acts ++
          (if env.spaceAvailable = false then [Act.spaceFull]
           else if env.channelInotify then
             [Act.copyTrigger ((edir.getD "") ++ "/" ++ env.epath)]
           else []) ++
          [Act.raiseEvent "CRASH" cname edir key]

/-- A guest event-history line parsed by `sscanf` into its five fields
(event-kind, per-VM key, long-form timestamp, subtype, free-form
remainder).  A handler environment carries `none` when the line does not
produce exactly five fields. -/
structure Parsed where
  ev : String
  vmkey : String
  longtime : String
  ty : String
  rest : String
deriving DecidableEq

/-- Environment of `telemd_new_vmevent`: parse outcome of the line,
result of the `find_file` lookup under the crashlog sender's output
directory (`Except.error` for a negative return), success of the class
`asprintf`, the `generate_eventid256` result, the entry names returned by
`lsdir` (including `.` and `..`; `Except.error` for a negative count),
success of the "no logs under" `asprintf`, and the per-payload outcome of
`telemd_send_data`. -/
structure TelemdVmEnv where
  parse : Option Parsed
  vmName : String
  senderFound : Bool
  findFile : Except Int (Option String)
  classOk : Bool
  eventid : Option String
  lsdirNames : Except Int (List String)
  contentOk : Bool
  sendOk : String → Bool

/-- The part of `telemd_new_vmevent` after the optional `find_file`
lookup: class and event-id derivation, then one `telemd_send_data` call
per directory entry surviving the `strstr(path, "/.")` filter (or a
"no logs" record when no log directory was found). -/
def telemd_vm_after_find (env : TelemdVmEnv) ( _p : Parsed)
    (vmlogpath : Option String) : VmRes × List Act :=
  if env.classOk = false then (VmRes.defer, [])
  else
    match env.eventid with
    | none => (VmRes.defer, [])
    | some _ =>
        match vmlogpath with
        | none =>
            ((if env.sendOk "no logs" then VmRes.handled else VmRes.defer),
              [Act.send "no logs"])
        | some vp =>
            match env.lsdirNames with
            | Except.error _ => (VmRes.defer, [])
            | Except.ok names =>
                let files := names.map (fun n => vp ++ "/" ++ n)
                if 2 < files.length then
                  let sends := files.filter
                    (fun f => !(hasSubstr f "/.") && !(hasSubstr f "/.."))
                  ((if sends.all env.sendOk then VmRes.handled
                    else VmRes.defer),
                    sends.map Act.send)
                else if files.length = 2 then
                  if env.contentOk then
                    ((if env.sendOk ("no logs under (" ++ vp ++ ")")
                      then VmRes.handled else VmRes.defer),
                      [Act.send ("no logs under (" ++ vp ++ ")")])
                  else (VmRes.defer, [])
                else (VmRes.defer, [])

/-- `telemd_new_vmevent` of `sender.c`: parse the line; when the
remainder embeds a `/logs/` reference, look the directory up under the
crashlog sender's output directory; then derive class/event id and
submit. -/
def telemd_new_vmevent (env : TelemdVmEnv) : VmRes × List Act :=
  match env.parse with
  | none => (VmRes.handled, [])
  | some p =>
      match strstrTail p.rest "/logs/" with
      | none => telemd_vm_after_find env p none
      | some _ =>
          if env.senderFound = false then (VmRes.handled, [])
          else
            match env.findFile with
            | Except.error _ => (VmRes.defer, [])
            | Except.ok vmlogpath => telemd_vm_after_find env p vmlogpath

/-- Environment of `crashlog_new_vmevent`: parse outcome, sender lookup
and quota results, `generate_event_id` and `generate_log_dir` results,
and the outcome of `e2fs_dump_dir_by_dpath` (`dumpRes` is its return
value, `dumpCnt` the number of files recovered before an abort). -/
structure CrashVmEnv where
  parse : Option Parsed
  vmName : String
  senderFound : Bool
  spaceAvailable : Bool
  keyRes : Option String
  dirRes : Option String
  dumpRes : Int
  dumpCnt : Nat

/-- `crashlog_new_vmevent` of `sender.c`: parse, quota gate, key and
directory generation, optional guest-filesystem extraction of the
embedded `/logs/` directory, then crash manifest plus history record. -/
def crashlog_new_vmevent (env : CrashVmEnv) : VmRes × List Act :=
  match env.parse with
  | none => (VmRes.handled, [])
  | some p =>
      if env.senderFound = false then (VmRes.handled, [])
      else if env.spaceAvailable = false then (VmRes.handled, [Act.spaceFull])
      else
        match env.keyRes with
        | none => (VmRes.defer, [])
        | some key =>
            match env.dirRes with
            | none => (VmRes.defer, [])
            | some dir =>
                match strstrTail p.rest "/logs/" with
                | some occ =>
                    let vmlogpath := String.mk (occ.toList.drop 1)
                    if env.dumpRes = -1 then
                      (if env.dumpCnt ≠ 0 then
                        (VmRes.defer,
                          [Act.dumpAttempt vmlogpath dir, Act.removeDir dir])
                      else
                        (VmRes.handled,
                          [Act.dumpAttempt vmlogpath dir, Act.removeDir dir]))
                    else
                      (VmRes.handled,
                        [Act.dumpAttempt vmlogpath dir, Act.crashfile dir,
                          Act.raiseEvent env.vmName p.ty (some dir) key])
                | none =>
                    (VmRes.handled,
                      [Act.crashfile dir,
                        Act.raiseEvent env.vmName p.ty (some dir) key])

end AcrnSender

namespace AcrnSender

/-- C2: with `tailLines` parsing to `N > 0` and a source of `L > 0` logical
lines, the collected artifact is exactly the last `min N L` lines of the
source, verbatim (the suffix of the source dropping its first
`L - min N L` lines). -/
theorem tail_extraction_last_lines (src : List String) (tl : String) (n : Nat)
    (hn : 0 < n) (ha : atoi tl = (n : Int)) (hsrc : src ≠ []) :
    get_log_file src (some tl) =
      some (src.drop (src.length - min n src.length)) ∧
    (src.drop (src.length - min n src.length)).length = min n src.length := by
  have hL : 0 < src.length := List.length_pos.mpr hsrc
  constructor
  · show get_log_file src (some tl) = _
    have h1 : ¬ ((src.length : Int) ≤ 0) := by
      omega
    have h2 : ((n : Int) > 0) := by exact_mod_cast hn
    simp only [get_log_file, get_log_file_tail, ha, h2, if_true, h1, if_false]
    congr 1
    congr 1
    omega
  · rw [List.length_drop]
    omega

/-- Witness for `tail_extraction_last_lines` at `N = 2`,
`src = ["a", "b", "c"]`. -/
theorem tail_extraction_last_lines_witness :
    get_log_file ["a", "b", "c"] (some "2") =
      some ((["a", "b", "c"] : List String).drop
        ((["a", "b", "c"] : List String).length -
          min 2 (["a", "b", "c"] : List String).length)) ∧
    ((["a", "b", "c"] : List String).drop
        ((["a", "b", "c"] : List String).length -
          min 2 (["a", "b", "c"] : List String).length)).length =
      min 2 (["a", "b", "c"] : List String).length :=
  tail_extraction_last_lines ["a", "b", "c"] "2" 2 (by decide) (by decide)
    (by decide)

/-- C7: the adapter operations are invoked in create → set-event-id →
set-payload → send → release order (each at most once), set-event-id only
when an event id is supplied, the record handle is released on every exit
path after a successful creation (release is the final call), and the
return value is 0 iff every invoked step succeeded. -/
theorem telemd_send_data_protocol (env : TmEnv) (eventid : Option String) :
    ((telemd_send_data env eventid).2).Pairwise
      (fun a b => tmRank a < tmRank b) ∧
    ((telemd_send_data env eventid).2).head? = some TmOp.create ∧
    (eventid = none → TmOp.setEventId ∉ (telemd_send_data env eventid).2) ∧
    (0 ≤ env.createRes →
      ((telemd_send_data env eventid).2).getLast? = some TmOp.release) ∧
    ((telemd_send_data env eventid).1 = 0 ↔
      (0 ≤ env.createRes ∧ (eventid.isSome → 0 ≤ env.setEventIdRes) ∧
        0 ≤ env.setPayloadRes ∧ 0 ≤ env.sendRes)) := by
  rcases eventid with _ | e
  · simp only [telemd_send_data]
    split_ifs with h1 h2 h3
    · exact ⟨by decide, rfl, fun _ => by decide,
        fun h => absurd h (not_le.mpr h1),
        iff_of_false (by decide) (by rintro ⟨a, -, -, -⟩; omega)⟩
    · exact ⟨by decide, rfl, fun _ => by decide, fun _ => by decide,
        iff_of_false (by decide) (by rintro ⟨-, -, c, -⟩; omega)⟩
    · exact ⟨by decide, rfl, fun _ => by decide, fun _ => by decide,
        iff_of_false (by decide) (by rintro ⟨-, -, -, d⟩; omega)⟩
    · exact ⟨by decide, rfl, fun _ => by decide, fun _ => by decide,
        iff_of_true rfl
          ⟨by omega, fun hs => absurd hs (by decide), by omega, by omega⟩⟩
  · simp only [telemd_send_data]
    split_ifs with h1 h2 h3 h4
    · exact ⟨by decide, rfl, fun h => h.elim,
        fun h => absurd h (not_le.mpr h1),
        iff_of_false (by decide) (by rintro ⟨a, -, -, -⟩; omega)⟩
    · exact ⟨by decide, rfl, fun h => h.elim, fun _ => by decide,
        iff_of_false (by decide)
          (by rintro ⟨-, b, -, -⟩; exact absurd (b rfl) (not_le.mpr h2))⟩
    · exact ⟨by decide, rfl, fun h => h.elim, fun _ => by decide,
        iff_of_false (by decide) (by rintro ⟨-, -, c, -⟩; omega)⟩
    · exact ⟨by decide, rfl, fun h => h.elim, fun _ => by decide,
        iff_of_false (by decide) (by rintro ⟨-, -, -, d⟩; omega)⟩
    · exact ⟨by decide, rfl, fun h => h.elim, fun _ => by decide,
        iff_of_true rfl ⟨by omega, fun _ => by omega, by omega, by omega⟩⟩

/-- Witness for `telemd_send_data_protocol` at an all-successful
environment with an event id supplied. -/
theorem telemd_send_data_protocol_witness :
    ((telemd_send_data ⟨0, 0, 0, 0⟩ (some "e")).2).Pairwise
      (fun a b => tmRank a < tmRank b) ∧
    ((telemd_send_data ⟨0, 0, 0, 0⟩ (some "e")).2).head? = some TmOp.create ∧
    ((some "e" : Option String) = none →
      TmOp.setEventId ∉ (telemd_send_data ⟨0, 0, 0, 0⟩ (some "e")).2) ∧
    (0 ≤ (⟨0, 0, 0, 0⟩ : TmEnv).createRes →
      ((telemd_send_data ⟨0, 0, 0, 0⟩ (some "e")).2).getLast? =
        some TmOp.release) ∧
    ((telemd_send_data ⟨0, 0, 0, 0⟩ (some "e")).1 = 0 ↔
      (0 ≤ (⟨0, 0, 0, 0⟩ : TmEnv).createRes ∧
        ((some "e" : Option String).isSome →
          0 ≤ (⟨0, 0, 0, 0⟩ : TmEnv).setEventIdRes) ∧
        0 ≤ (⟨0, 0, 0, 0⟩ : TmEnv).setPayloadRes ∧
        0 ≤ (⟨0, 0, 0, 0⟩ : TmEnv).sendRes)) :=
  telemd_send_data_protocol ⟨0, 0, 0, 0⟩ (some "e")

/-- C8: the derived destination file path is `<destDir>/<filename>` where
`filename` is the expanded source file's base name when the log's path is
a config-format pattern and the log's configured name otherwise, and the
`_<timestamp>` suffix is appended iff the log's type is `cmd` or its
`lines` field is set. -/
theorem log_filepath_derivation (isAcFmt : String → Bool) (uptimeStr : String)
    (log : LogT) (srcname : Option String) (desdir : String) (fn : String)
    (hfn : (if isAcFmt log.path then srcname else log.name) = some fn) :
    cal_log_filepath isAcFmt uptimeStr log srcname desdir =
      some (if (log.type == "cmd" || log.lines.isSome) = true
        then desdir ++ "/" ++ fn ++ "_" ++ uptimeStr
        else desdir ++ "/" ++ fn) := by
  simp only [cal_log_filepath, hfn]
  split_ifs with h
  · rfl
  · rfl

/-- Witness for `log_filepath_derivation`: a `cmd`-type log named
"ps" collected into "/var/log/crashlog/crash0". -/
theorem log_filepath_derivation_witness :
    cal_log_filepath (fun _ => false) "123"
        ⟨some "ps", "cmd", "ps", none⟩ (some "ps") "/var/log/crashlog/crash0" =
      some (if ((⟨some "ps", "cmd", "ps", none⟩ : LogT).type == "cmd" ||
            (⟨some "ps", "cmd", "ps", none⟩ : LogT).lines.isSome) = true
        then "/var/log/crashlog/crash0" ++ "/" ++ "ps" ++ "_" ++ "123"
        else "/var/log/crashlog/crash0" ++ "/" ++ "ps") :=
  log_filepath_derivation (fun _ => false) "123"
    ⟨some "ps", "cmd", "ps", none⟩ (some "ps") "/var/log/crashlog/crash0" "ps"
    (by decide)

/-- C10: a `file`-type log whose `lines` field is set but parses to a
non-positive integer falls back to a whole-file copy, while the
destination filename still carries the timestamp suffix because `lines`
is set. -/
theorem nonpositive_taillines_whole_copy (src : List String) (tl : String)
    (log : LogT) (isAcFmt : String → Bool) (uptimeStr desdir fn : String)
    (h1 : atoi tl ≤ 0) (h2 : log.lines = some tl) ( _htype : log.type = "file")
    (h3 : isAcFmt log.path = false) (h4 : log.name = some fn) :
    get_log_file src (some tl) = some src ∧
    cal_log_filepath isAcFmt uptimeStr log log.name desdir =
      some (desdir ++ "/" ++ fn ++ "_" ++ uptimeStr) := by
  constructor
  · simp only [get_log_file]
    have hng : ¬ (atoi tl > 0) := by omega
    simp [hng]
  · simp [cal_log_filepath, h2, h3, h4]

/-- When its quota gate fails, `crashlog_get_log` raises exactly the
over-quota record and collects nothing. -/
theorem crashlog_get_log_no_space (env : CrashlogEnv) (log : LogT)
    (desdir : String) (h3 : env.senderFound = true)
    (h4 : env.spaceAvailable = false) :
    crashlog_get_log env log desdir = [Act.spaceFull] := by
  simp [crashlog_get_log, h3, h4]

/-- The per-log collection loop under a failed quota gate: one SPACE_FULL
record per log. -/
theorem flatMap_get_log_no_space (env : CrashlogEnv) (d : String)
    (h3 : env.senderFound = true) (h4 : env.spaceAvailable = false)
    (l : List LogT) :
    l.flatMap (fun lg => crashlog_get_log env lg d) =
      l.map (fun _ => Act.spaceFull) := by
  induction l with
  | nil => rfl
  | cons a t ih =>
      show crashlog_get_log env a d ++
        t.flatMap (fun lg => crashlog_get_log env lg d) = _
      rw [crashlog_get_log_no_space env a d h3 h4, ih]
      rfl

/-- Counting occurrences in a constant-map list. -/
theorem count_map_const_spaceFull (l : List LogT) :
    (l.map (fun _ => Act.spaceFull)).count Act.spaceFull = l.length := by
  induction l with
  | nil => rfl
  | cons a t ih => simp [List.count_cons, ih]

/-- C1 amended: when the quota check consistently reports no space for an
event whose reclassification and key derivation succeed, the crashlog
sender raises SPACE_FULL once per collected (non-null) associated log
plus once in the crash handler itself — `n + 1` times in total, where
`n` is the number of non-null logs when collection is triggered and `0`
otherwise — and no log artifact is written and no trigger file copied;
the crash manifest and the history record are still produced. -/
theorem quota_spacefull_per_check (env : CrashlogEnv) (cname key d : String)
    (h1 : env.reclassify = some cname) (h2 : env.keyRes = some key)
    (h3 : env.senderFound = true) (h4 : env.spaceAvailable = false)
    (h5 : (env.toCollect || env.channelInotify) = true →
      env.dirRes = some d) :
    (crashlog_send_crash env).count Act.spaceFull =
      (if env.toCollect || env.channelInotify
        then env.logs.reduceOption.length else 0) + 1 ∧
    (∀ s, Act.writeArtifact s ∉ crashlog_send_crash env) ∧
    (∀ s, Act.copyTrigger s ∉ crashlog_send_crash env) ∧
    Act.raiseEvent "CRASH" cname
      (if env.toCollect || env.channelInotify then some d else none) key ∈
      crashlog_send_crash env ∧
    ((env.toCollect || env.channelInotify) = true →
      Act.crashfile d ∈ crashlog_send_crash env) := by
  cases hb : (env.toCollect || env.channelInotify) with
  | true =>
      have hd := h5 hb
      have htr : crashlog_send_crash env =
          (Act.crashfile d :: env.logs.reduceOption.map (fun _ => Act.spaceFull))
            ++ [Act.spaceFull] ++ [Act.raiseEvent "CRASH" cname (some d) key] := by
        simp only [crashlog_send_crash, h1, h2, hb, hd, h3, h4,
          flatMap_get_log_no_space env d h3 h4]
        rfl
      refine ⟨?_, ?_, ?_, ?_, ?_⟩
      · rw [htr]
        simp [List.count_append, List.count_cons, count_map_const_spaceFull]
      · intro s hs
        rw [htr] at hs
        simp at hs
      · intro s hs
        rw [htr] at hs
        simp at hs
      · rw [htr]
        simp
      · intro _
        rw [htr]
        simp
  | false =>
      have htr : crashlog_send_crash env =
          ([] : List Act) ++ [Act.spaceFull] ++
            [Act.raiseEvent "CRASH" cname none key] := by
        simp only [crashlog_send_crash, h1, h2, hb, h3, h4]
        rfl
      refine ⟨?_, ?_, ?_, ?_, ?_⟩
      · rw [htr]
        simp [List.count_append, List.count_cons]
      · intro s hs
        rw [htr] at hs
        simp at hs
      · intro s hs
        rw [htr] at hs
        simp at hs
      · rw [htr]
        simp
      · intro hc
        exact absurd hc (by decide)

/-- Inputs for the C1 counterexample and the C1 witness: a crash event
with one associated log descriptor, quota exhausted. -/
def envC1 : CrashlogEnv where
  senderFound := true
  spaceAvailable := false
  isAcFmt := fun _ => false
  configFmtToFiles := fun _ => Except.ok []
  uptimeStr := "42"
  elapsedNs := 0
  reclassify := some "JAVACRASH"
  keyRes := some "crashkey0"
  dirRes := some "/var/log/crashlog/crash42"
  toCollect := true
  channelInotify := false
  epath := "t"
  logs := [some ⟨some "kmsg", "file", "/var/log/kmsg", none⟩]

/-- C1 counterexample: with quota exhausted and one associated log,
`crashlog_send_crash` raises SPACE_FULL twice for the one event — once
inside the per-log quota gate of `crashlog_get_log` and once in the
handler itself — not exactly once, and the crash manifest file is still
created under the event output directory. -/
theorem quota_spacefull_counterexample :
    (crashlog_send_crash envC1).count Act.spaceFull = 2 ∧
    Act.crashfile "/var/log/crashlog/crash42" ∈ crashlog_send_crash envC1 := by
  decide

/-- Witness for `quota_spacefull_per_check` at the concrete `envC1`. -/
theorem quota_spacefull_per_check_witness :
    (crashlog_send_crash envC1).count Act.spaceFull =
      (if envC1.toCollect || envC1.channelInotify
        then envC1.logs.reduceOption.length else 0) + 1 ∧
    (∀ s, Act.writeArtifact s ∉ crashlog_send_crash envC1) ∧
    (∀ s, Act.copyTrigger s ∉ crashlog_send_crash envC1) ∧
    Act.raiseEvent "CRASH" "JAVACRASH"
      (if envC1.toCollect || envC1.channelInotify
        then some "/var/log/crashlog/crash42" else none) "crashkey0" ∈
      crashlog_send_crash envC1 ∧
    ((envC1.toCollect || envC1.channelInotify) = true →
      Act.crashfile "/var/log/crashlog/crash42" ∈ crashlog_send_crash envC1) :=
  quota_spacefull_per_check envC1 "JAVACRASH" "crashkey0"
    "/var/log/crashlog/crash42" rfl rfl rfl rfl (fun _ => rfl)

/-- Inputs for the C9 theorems: quota fine, a plain (non-pattern) file
log, elapsed time exactly 5.0 seconds. -/
def envC9 : CrashlogEnv where
  senderFound := true
  spaceAvailable := true
  isAcFmt := fun _ => false
  configFmtToFiles := fun _ => Except.ok []
  uptimeStr := "9"
  elapsedNs := 5000000000
  reclassify := none
  keyRes := none
  dirRes := none
  toCollect := false
  channelInotify := false
  epath := ""
  logs := []

/-- The log descriptor used by the C9 theorems. -/
def logC9 : LogT := ⟨some "kmsg", "file", "/var/log/kmsg", none⟩

/-- C9 counterexample: at an elapsed time of exactly 5.0 s (5·10⁹ ns —
not longer than 5 seconds) the collection step is nevertheless flagged at
warning level, so "warning exactly when longer than 5 seconds" fails; the
artifact is still collected. -/
theorem timing_warn_counterexample :
    crashlog_get_log envC9 logC9 "d" =
      [Act.writeArtifact "d/kmsg", Act.timing true] ∧
    ¬ ((5000000000 : Nat) > 5 * 1000000000) := by
  exact ⟨by decide, by decide⟩

/-- Collection iterations of the config-format loop never emit a timing
action: that log is emitted once, after the loop. -/
theorem timing_not_in_collectOne (env : CrashlogEnv) (log : LogT)
    (desdir file : String) (w : Bool) :
    Act.timing w ∉ collectOne env log desdir file := by
  unfold collectOne
  cases ha : afterLastSlash file with
  | none => simp
  | some nm =>
      cases hc : cal_log_filepath env.isAcFmt env.uptimeStr log (some nm) desdir
        with
      | none => simp [hc]
      | some des => simp [hc]

/-- `collectOne` does not read the elapsed time. -/
theorem collectOne_elapsed_irrel (env : CrashlogEnv) (n : Nat) (log : LogT)
    (desdir file : String) :
    collectOne { env with elapsedNs := n } log desdir file =
      collectOne env log desdir file := rfl

/-- The config-format collection loop does not read the elapsed time. -/
theorem flatMap_collectOne_elapsed_irrel (env : CrashlogEnv) (n : Nat)
    (log : LogT) (desdir : String) (files : List String) :
    files.flatMap (collectOne { env with elapsedNs := n } log desdir) =
      files.flatMap (collectOne env log desdir) := by
  induction files with
  | nil => rfl
  | cons a t ih =>
      show collectOne { env with elapsedNs := n } log desdir a ++
        t.flatMap (collectOne { env with elapsedNs := n } log desdir) = _
      rw [collectOne_elapsed_irrel, ih]
      rfl

/-- C9 amended: for every crashlog collection step that reaches the
timing check — in the plain branch as well as in the config-format
pattern branch — the elapsed-time log is at warning level exactly when
the elapsed time is at least 5 seconds (truncated whole-second count
≥ 5, i.e. elapsed ≥ 5·10⁹ ns) and at debug level otherwise; the
collection actions carry no other timing flag and are independent of the
elapsed time, so exceeding the threshold is not a failure. -/
theorem timing_warn_threshold (env : CrashlogEnv) (log : LogT)
    (desdir : String) (acts : List Act)
    (h1 : env.senderFound = true) (h2 : env.spaceAvailable = true)
    (hbr :
      (env.isAcFmt log.path = false ∧
        ∃ des, cal_log_filepath env.isAcFmt env.uptimeStr log log.name desdir =
            some des ∧ acts = [Act.writeArtifact des]) ∨
      (env.isAcFmt log.path = true ∧
        ∃ files, env.configFmtToFiles log.path = Except.ok files ∧
          files ≠ [] ∧ acts = files.flatMap (collectOne env log desdir))) :
    ∃ w : Bool,
      crashlog_get_log env log desdir = acts ++ [Act.timing w] ∧
      (w = true ↔ 5 * 1000000000 ≤ env.elapsedNs) ∧
      (∀ w2, Act.timing w2 ∉ acts) ∧
      (∀ n, ∃ w3, crashlog_get_log { env with elapsedNs := n } log desdir =
        acts ++ [Act.timing w3]) := by
  refine ⟨decide (5 ≤ env.elapsedNs / 1000000000), ?_, ?_, ?_, ?_⟩
  · rcases hbr with ⟨hac, des, hcal, hacts⟩ | ⟨hac, files, hcf, hne, hacts⟩
    · subst hacts
      simp [crashlog_get_log, h1, h2, hac, hcal]
    · subst hacts
      simp [crashlog_get_log, h1, h2, hac, hcf, hne]
  · rw [decide_eq_true_iff]
    omega
  · rcases hbr with ⟨hac, des, hcal, hacts⟩ | ⟨hac, files, hcf, hne, hacts⟩
    · subst hacts
      intro w2
      simp
    · subst hacts
      intro w2 hmem
      rcases List.mem_flatMap.mp hmem with ⟨x, hx, hm⟩
      exact timing_not_in_collectOne env log desdir x w2 hm
  · intro n
    refine ⟨decide (5 ≤ n / 1000000000), ?_⟩
    rcases hbr with ⟨hac, des, hcal, hacts⟩ | ⟨hac, files, hcf, hne, hacts⟩
    · subst hacts
      simp [crashlog_get_log, h1, h2, hac, hcal]
    · subst hacts
      simp [crashlog_get_log, h1, h2, hac, hcf, hne]
      exact flatMap_collectOne_elapsed_irrel env n log desdir files

/-- Inputs for the C9 witness: a config-format pattern log expanding to
two source files. -/
def envC9b : CrashlogEnv where
  senderFound := true
  spaceAvailable := true
  isAcFmt := fun _ => true
  configFmtToFiles := fun _ => Except.ok ["/var/log/a0", "/var/log/a1"]
  uptimeStr := "9"
  elapsedNs := 7000000000
  reclassify := none
  keyRes := none
  dirRes := none
  toCollect := false
  channelInotify := false
  epath := ""
  logs := []

/-- The pattern log descriptor used by the C9 witness. -/
def logC9b : LogT := ⟨some "alog", "file", "/var/log/a[0-9]", none⟩

/-- Witness for `timing_warn_threshold`, exercising the config-format
pattern branch. -/
theorem timing_warn_threshold_witness :
    ∃ w : Bool,
      crashlog_get_log envC9b logC9b "d" =
        [Act.writeArtifact "d/a0", Act.writeArtifact "d/a1"] ++
          [Act.timing w] ∧
      (w = true ↔ 5 * 1000000000 ≤ envC9b.elapsedNs) ∧
      (∀ w2, Act.timing w2 ∉
        [Act.writeArtifact "d/a0", Act.writeArtifact "d/a1"]) ∧
      (∀ n, ∃ w3,
        crashlog_get_log { envC9b with elapsedNs := n } logC9b "d" =
          [Act.writeArtifact "d/a0", Act.writeArtifact "d/a1"] ++
            [Act.timing w3]) :=
  timing_warn_threshold envC9b logC9b "d"
    [Act.writeArtifact "d/a0", Act.writeArtifact "d/a1"] rfl rfl
    (Or.inr ⟨rfl, ["/var/log/a0", "/var/log/a1"], rfl, by decide, by decide⟩)

/-- Witness for `nonpositive_taillines_whole_copy` with `lines = "0"`. -/
theorem nonpositive_taillines_whole_copy_witness :
    get_log_file ["x", "y"] (some "0") = some ["x", "y"] ∧
    cal_log_filepath (fun _ => false) "7"
        ⟨some "kmsg", "file", "/var/log/kmsg", some "0"⟩
        (⟨some "kmsg", "file", "/var/log/kmsg", some "0"⟩ : LogT).name "d" =
      some ("d" ++ "/" ++ "kmsg" ++ "_" ++ "7") :=
  nonpositive_taillines_whole_copy ["x", "y"] "0"
    ⟨some "kmsg", "file", "/var/log/kmsg", some "0"⟩ (fun _ => false) "7" "d"
    "kmsg" (by decide) rfl rfl rfl rfl

/-- C6: a guest event line that does not parse into the five expected
fields makes both VM-event handlers return HANDLED with no collection,
submission or record emission. -/
theorem unparseable_line_handled (et : TelemdVmEnv) (ec : CrashVmEnv)
    (h1 : et.parse = none) (h2 : ec.parse = none) :
    telemd_new_vmevent et = (VmRes.handled, []) ∧
    crashlog_new_vmevent ec = (VmRes.handled, []) := by
  constructor
  · simp [telemd_new_vmevent, h1]
  · simp [crashlog_new_vmevent, h2]

/-- Telemd VM-event environment holding an unparseable line, for the C6
witness. -/
def etC6 : TelemdVmEnv where
  parse := none
  vmName := "vm0"
  senderFound := true
  findFile := Except.ok none
  classOk := true
  eventid := some "e"
  lsdirNames := Except.ok []
  contentOk := true
  sendOk := fun _ => true

/-- Crashlog VM-event environment holding an unparseable line, for the
C6 witness. -/
def ecC6 : CrashVmEnv where
  parse := none
  vmName := "vm0"
  senderFound := true
  spaceAvailable := true
  keyRes := some "k"
  dirRes := some "d"
  dumpRes := 0
  dumpCnt := 0

/-- Witness for `unparseable_line_handled`. -/
theorem unparseable_line_handled_witness :
    telemd_new_vmevent etC6 = (VmRes.handled, []) ∧
    crashlog_new_vmevent ecC6 = (VmRes.handled, []) :=
  unparseable_line_handled etC6 ecC6 rfl rfl

/-- C5: for a successfully parsed guest event line, a failure to derive
the class string or the deduplication key / event id makes the handler
return DEFERRED without emitting any record, in both senders. -/
theorem key_derivation_failure_defers (et : TelemdVmEnv) (ec : CrashVmEnv)
    (p q : Parsed)
    (h1 : et.parse = some p)
    (h2 : strstrTail p.rest "/logs/" = none ∨
      (et.senderFound = true ∧ ∃ v, et.findFile = Except.ok v))
    (h3 : et.classOk = false ∨ et.eventid = none)
    (h4 : ec.parse = some q) (h5 : ec.senderFound = true)
    (h6 : ec.spaceAvailable = true) (h7 : ec.keyRes = none) :
    telemd_new_vmevent et = (VmRes.defer, []) ∧
    crashlog_new_vmevent ec = (VmRes.defer, []) := by
  constructor
  · have hafter : ∀ v, telemd_vm_after_find et p v = (VmRes.defer, []) := by
      intro v
      rcases h3 with hc | he
      · simp [telemd_vm_after_find, hc]
      · cases hcl : et.classOk with
        | false => simp [telemd_vm_after_find, hcl]
        | true => simp [telemd_vm_after_find, hcl, he]
    rcases h2 with hno | ⟨hs, v, hf⟩
    · simp [telemd_new_vmevent, h1, hno, hafter]
    · cases hst : strstrTail p.rest "/logs/" with
      | none => simp [telemd_new_vmevent, h1, hst, hafter]
      | some occ => simp [telemd_new_vmevent, h1, hst, hs, hf, hafter]
  · simp [crashlog_new_vmevent, h4, h5, h6, h7]

/-- Telemd VM-event environment whose event-id derivation fails, for the
C5 witness. -/
def etC5 : TelemdVmEnv where
  parse := some ⟨"REBOOT", "k1", "2011-11-11/11:20:51", "POWER-ON",
    "0000:00:00"⟩
  vmName := "vm0"
  senderFound := true
  findFile := Except.ok none
  classOk := true
  eventid := none
  lsdirNames := Except.ok []
  contentOk := true
  sendOk := fun _ => true

/-- Crashlog VM-event environment whose key derivation fails, for the C5
witness. -/
def ecC5 : CrashVmEnv where
  parse := some ⟨"REBOOT", "k1", "2011-11-11/11:20:51", "POWER-ON",
    "0000:00:00"⟩
  vmName := "vm0"
  senderFound := true
  spaceAvailable := true
  keyRes := none
  dirRes := none
  dumpRes := 0
  dumpCnt := 0

/-- Witness for `key_derivation_failure_defers`. -/
theorem key_derivation_failure_defers_witness :
    telemd_new_vmevent etC5 = (VmRes.defer, []) ∧
    crashlog_new_vmevent ecC5 = (VmRes.defer, []) :=
  key_derivation_failure_defers etC5 ecC5
    ⟨"REBOOT", "k1", "2011-11-11/11:20:51", "POWER-ON", "0000:00:00"⟩
    ⟨"REBOOT", "k1", "2011-11-11/11:20:51", "POWER-ON", "0000:00:00"⟩
    rfl (Or.inl (by decide)) (Or.inr rfl) rfl rfl rfl rfl

/-- C4: when extraction of the embedded `/logs/` directory from the
guest filesystem fails, `crashlog_new_vmevent` returns HANDLED when zero
files were recovered and DEFERRED when one or more were; in both cases a
removal of the partially-written destination directory is issued and no
history record and no crash manifest is produced for the line. -/
theorem vm_extraction_failure (ec : CrashVmEnv) (p : Parsed)
    (key dir occ : String)
    (h1 : ec.parse = some p) (h2 : ec.senderFound = true)
    (h3 : ec.spaceAvailable = true) (h4 : ec.keyRes = some key)
    (h5 : ec.dirRes = some dir)
    (h6 : strstrTail p.rest "/logs/" = some occ)
    (h7 : ec.dumpRes = -1) :
    crashlog_new_vmevent ec =
      ((if ec.dumpCnt = 0 then VmRes.handled else VmRes.defer),
        [Act.dumpAttempt (String.mk (occ.toList.drop 1)) dir,
          Act.removeDir dir]) ∧
    (∀ a b c d, Act.raiseEvent a b c d ∉ (crashlog_new_vmevent ec).2) ∧
    (∀ d2, Act.crashfile d2 ∉ (crashlog_new_vmevent ec).2) := by
  have htr : crashlog_new_vmevent ec =
      ((if ec.dumpCnt = 0 then VmRes.handled else VmRes.defer),
        [Act.dumpAttempt (String.mk (occ.toList.drop 1)) dir,
          Act.removeDir dir]) := by
    by_cases hc : ec.dumpCnt = 0
    · simp [crashlog_new_vmevent, h1, h2, h3, h4, h5, h6, h7, hc]
    · simp [crashlog_new_vmevent, h1, h2, h3, h4, h5, h6, h7, hc]
  refine ⟨htr, ?_, ?_⟩
  · intro a b c d hm
    rw [htr] at hm
    simp at hm
  · intro d2 hm
    rw [htr] at hm
    simp at hm

/-- Crashlog VM-event environment whose guest extraction aborts after
recovering 3 files, for the C4 witness. -/
def ecC4 : CrashVmEnv where
  parse := some ⟨"CRASH", "k77", "2017-11-11/03:12:59", "JAVACRASH",
    "/data/logs/crashlog0"⟩
  vmName := "vm0"
  senderFound := true
  spaceAvailable := true
  keyRes := some "key4"
  dirRes := some "/var/log/crashlog/vmevent4"
  dumpRes := -1
  dumpCnt := 3

/-- Witness for `vm_extraction_failure` at `ecC4` (partial recovery of
3 files, so the line is deferred). -/
theorem vm_extraction_failure_witness :
    crashlog_new_vmevent ecC4 =
      ((if ecC4.dumpCnt = 0 then VmRes.handled else VmRes.defer),
        [Act.dumpAttempt (String.mk (("/logs/crashlog0" : String).toList.drop 1))
          "/var/log/crashlog/vmevent4",
          Act.removeDir "/var/log/crashlog/vmevent4"]) ∧
    (∀ a b c d, Act.raiseEvent a b c d ∉ (crashlog_new_vmevent ecC4).2) ∧
    (∀ d2, Act.crashfile d2 ∉ (crashlog_new_vmevent ecC4).2) :=
  vm_extraction_failure ecC4
    ⟨"CRASH", "k77", "2017-11-11/03:12:59", "JAVACRASH", "/data/logs/crashlog0"⟩
    "key4" "/var/log/crashlog/vmevent4" "/logs/crashlog0"
    rfl rfl rfl rfl rfl (by decide) rfl

/-- C3 amended: for a parsed line whose `/logs/` directory is found and
lists more than two entries, the telemetry handler submits exactly one
record per entry whose full path does not contain `"/."` (equivalently:
whose name does not begin with a dot), in directory order, and zero
records for every dot-initial entry — in particular zero for the `.` and
`..` self-references. -/
theorem vm_dir_entries_submission (et : TelemdVmEnv) (p : Parsed)
    (occ vp e : String) (names : List String)
    (h1 : et.parse = some p)
    (h2 : strstrTail p.rest "/logs/" = some occ)
    (h3 : et.senderFound = true)
    (h4 : et.findFile = Except.ok (some vp))
    (h5 : et.classOk = true) (h6 : et.eventid = some e)
    (h7 : et.lsdirNames = Except.ok names)
    (h8 : 2 < names.length) :
    (telemd_new_vmevent et).2 =
      ((names.map (fun n => vp ++ "/" ++ n)).filter
        (fun f => !(hasSubstr f "/.") && !(hasSubstr f "/.."))).map
        Act.send := by
  simp [telemd_new_vmevent, h1, h2, h3, h4, telemd_vm_after_find, h5, h6, h7,
    h8]

/-- Inputs for the C3 counterexample: the found log directory lists `.`,
`..` and one real (but dot-initial) entry, and every submission would
succeed. -/
def envC3 : TelemdVmEnv where
  parse := some ⟨"CRASH", "k1", "2017-11-11/03:12:59", "JAVACRASH",
    "/data/logs/crashlog0"⟩
  vmName := "vm0"
  senderFound := true
  findFile := Except.ok (some "/var/log/crashlog/crashlog0")
  classOk := true
  eventid := some "e"
  lsdirNames := Except.ok [".", "..", ".hidden"]
  contentOk := true
  sendOk := fun _ => true

/-- C3 counterexample: the directory contains exactly one real entry
(`.hidden`) beyond the two self-references, yet the handler submits zero
records for the line, because its `strstr(path, "/.")` filter rejects
every dot-initial entry and not only `.` and `..`. -/
theorem vm_dir_entries_counterexample :
    envC3.lsdirNames = Except.ok [".", "..", ".hidden"] ∧
    (([".", "..", ".hidden"] : List String).filter
      (fun n => !(n == ".") && !(n == ".."))) = [".hidden"] ∧
    (telemd_new_vmevent envC3).2 = [] := by
  refine ⟨rfl, by decide, by decide⟩

/-- Inputs for the C3 witness: same as `envC3` but with a real entry not
beginning with a dot. -/
def envC3w : TelemdVmEnv :=
  { envC3 with lsdirNames := Except.ok [".", "..", "a"] }

/-- Witness for `vm_dir_entries_submission` at `envC3w`. -/
theorem vm_dir_entries_submission_witness :
    (telemd_new_vmevent envC3w).2 =
      (((([".", "..", "a"] : List String).map
        (fun n => "/var/log/crashlog/crashlog0" ++ "/" ++ n)).filter
        (fun f => !(hasSubstr f "/.") && !(hasSubstr f "/.."))).map
        Act.send) :=
  vm_dir_entries_submission envC3w
    ⟨"CRASH", "k1", "2017-11-11/03:12:59", "JAVACRASH", "/data/logs/crashlog0"⟩
    "/logs/crashlog0" "/var/log/crashlog/crashlog0" "e" [".", "..", "a"]
    rfl (by decide) rfl rfl rfl rfl rfl (by decide)

end AcrnSender
